import Mathlib

/-!
Verification of the onboarding-counter canister client (src/ic_agent.rs,
src/server_functions.rs, src/main.rs, src/app.rs) against its design
specification.

The Rust code is shallowly embedded here.  Library effects (agent
construction, root-key fetching, principal parsing, candid
encoding/decoding, the update transport) are abstracted into an
`ExternalOps` record of oracles; each embedded function additionally
returns the list of network-facing `Effect`s it performed, in order, so
that statements such as "exactly one trust-bootstrap round trip" or "no
network I/O before the configuration error" become statements about that
trace.  Machine-independent data (candid `Nat`) is modelled by Lean's
unbounded `Nat`.
-/

namespace Onboarding

deriving instance DecidableEq for Except

/-- Rust's `str::contains` substring test, used by `ICClient::new` to
detect a loopback endpoint URL. -/
def rustContains (s pat : String) : Bool :=
  decide (pat.data <:+: s.data)

/-- Abstract model of `candid::Principal`: an opaque identity value.
Parsing from text is delegated to the `ExternalOps` oracle. -/
structure Principal where
  name : String
deriving DecidableEq

/-- Abstract model of a built `ic_agent::Agent` connection handle. -/
structure Agent where
  url : String
deriving DecidableEq

/-- Network-facing effects performed by the embedded code, recorded in
order of occurrence. -/
inductive Effect where
  | buildAgent (url : String)
  | fetchRootKey (a : Agent)
  | updateCall (target : Principal) (method : String) (arg : List Nat)
deriving DecidableEq

/-- Oracles for the external library calls made by the source: agent
building, root-key fetching, principal parsing, candid argument encoding,
the update transport, candid response decoding, and the agent identity
lookup.  Each fallible call returns `Except` with the library's error
message, mirroring the Rust `Result` values the source consumes. -/
structure ExternalOps where
  buildAgent : String → Except String Agent
  fetchRootKey : Agent → Except String Unit
  principalFromText : String → Except String Principal
  encodeArgs : Principal → Except String (List Nat)
  update : Agent → Principal → String → List Nat → Except String (List Nat)
  decodeNatResult : List Nat → Except String (Except String Nat)
  agentGetPrincipal : Agent → Except String Principal

/-- `ICConfig` from src/ic_agent.rs. -/
structure ICConfig where
  deployment_env : String
  counter_canister_id : String
  caller_canister_id : String
deriving DecidableEq

/-- `ICConfig::new`. -/
def ICConfig.new (deployment_env counter_canister_id caller_canister_id : String) : ICConfig :=
  { deployment_env, counter_canister_id, caller_canister_id }

/-- `ICConfig::default_local` (src/ic_agent.rs lines 28-34). -/
def ICConfig.default_local : ICConfig :=
  { deployment_env := "local"
    counter_canister_id := "u6s2n-gx777-77774-qaaba-cai"
    caller_canister_id := "uxrrr-q7777-77774-qaaaq-cai" }

/-- Modelled from the spec: `ICConfig::default_mainnet` is invoked by
`main` (src/main.rs line 13) but its definition is not among the provided
source files.  Spec §4.1 describes it as the production canned default:
"a production default pair of pre-known identities".  The spec does not
name the concrete identity texts, so they are modelled by the two
placeholder constants below; only `deployment_env = "prod"` is
spec-determined. -/
def ICConfig.default_mainnet : ICConfig :=
  { deployment_env := "prod"
    counter_canister_id := "mainnet-counter-id"
    caller_canister_id := "mainnet-caller-id" }

/-- Decimal stringification of an unbounded natural, modelling
`candid::Nat::to_string` (num-bigint decimal display): digit characters
are produced most-significant first by repeated division by ten.  The
first argument is structural fuel; `natToString` supplies enough. -/
def natToDigitsAux : Nat → Nat → List Char
  | 0, _ => []
  | fuel + 1, n =>
    if n < 10 then [Char.ofNat (48 + n)]
    else natToDigitsAux fuel (n / 10) ++ [Char.ofNat (48 + n % 10)]

/-- Model of `value.to_string()` on a candid `Nat`. -/
def natToString (n : Nat) : String :=
  String.mk (natToDigitsAux (n + 1) n)

/-- Numeric value of one decimal digit character. -/
def charVal (c : Char) : Nat := c.toNat - 48

/-- Reference decimal parser over a character list (most-significant
digit first), used to state losslessness of `natToString`. -/
def parseDecimalList (l : List Char) : Nat :=
  l.foldl (fun acc c => 10 * acc + charVal c) 0

/-- Reference decimal parser over a string. -/
def parseDecimal (s : String) : Nat := parseDecimalList s.data

/-- `ICClient` from src/ic_agent.rs: the `agent` field is `Option`al
because `#[serde(skip)]` strips it from the serialized form. -/
structure ICClient where
  agent : Option Agent
  counter_canister_id : Principal
  caller_canister_id : Principal
deriving DecidableEq

/-- The identity-parsing tail of `ICClient::new` (src/ic_agent.rs lines
67-76): parse the counter principal, then the caller principal, then
assemble the client; each failure is tagged with which identity was
invalid. -/
def ICClient.parseAndBuild (ops : ExternalOps) (agent : Agent)
    (counter_canister_id caller_canister_id : String) : Except String ICClient :=
  match ops.principalFromText counter_canister_id with
  | .error e => .error ("Invalid counter canister ID: " ++ e)
  | .ok counter_principal =>
    match ops.principalFromText caller_canister_id with
    | .error e => .error ("Invalid caller canister ID: " ++ e)
    | .ok caller_principal =>
      .ok { agent := some agent
            counter_canister_id := counter_principal
            caller_canister_id := caller_principal }

/-- `ICClient::new` (src/ic_agent.rs lines 48-77): build the agent, fetch
the root key when the URL contains a loopback marker, then parse both
identities.  The second component is the trace of network effects. -/
def ICClient.new (ops : ExternalOps)
    (replica_url counter_canister_id caller_canister_id : String) :
    Except String ICClient × List Effect :=
  match ops.buildAgent replica_url with
  | .error e => (.error ("Failed to create agent: " ++ e), [Effect.buildAgent replica_url])
  | .ok agent =>
    if rustContains replica_url "127.0.0.1" || rustContains replica_url "localhost" then
      match ops.fetchRootKey agent with
      | .error e =>
        (.error ("Failed to fetch root key: " ++ e),
          [Effect.buildAgent replica_url, Effect.fetchRootKey agent])
      | .ok _ =>
        (ICClient.parseAndBuild ops agent counter_canister_id caller_canister_id,
          [Effect.buildAgent replica_url, Effect.fetchRootKey agent])
    else
      (ICClient.parseAndBuild ops agent counter_canister_id caller_canister_id,
        [Effect.buildAgent replica_url])

/-- Common body of `ICClient::caller_get` / `caller_increment` /
`caller_decrement` once the agent guard has passed (the three source
methods are verbatim identical except for the method name): encode the
counter principal as the sole argument, issue one update call to the
caller (relay) canister, await it, and decode the two-armed
`Result<Nat, String>` response. -/
def callViaAgent (ops : ExternalOps) (agent : Agent) (counter relay : Principal)
    (method : String) : Except String String × List Effect :=
  match ops.encodeArgs counter with
  | .error e => (.error e, [])
  | .ok arg =>
    match ops.update agent relay method arg with
    | .error e => (.error ("Update failed: " ++ e), [Effect.updateCall relay method arg])
    | .ok response =>
      match ops.decodeNatResult response with
      | .error e =>
        (.error ("Failed to decode response: " ++ e), [Effect.updateCall relay method arg])
      | .ok (.ok value) => (.ok (natToString value), [Effect.updateCall relay method arg])
      | .ok (.error err) => (.error ("Error: " ++ err), [Effect.updateCall relay method arg])

/-- `ICClient::caller_get` (src/ic_agent.rs lines 79-98). -/
def ICClient.caller_get (ops : ExternalOps) (self : ICClient) :
    Except String String × List Effect :=
  match self.agent with
  | none => (.error "Agent not available", [])
  | some agent => callViaAgent ops agent self.counter_canister_id self.caller_canister_id "call_get"

/-- `ICClient::caller_increment` (src/ic_agent.rs lines 101-120). -/
def ICClient.caller_increment (ops : ExternalOps) (self : ICClient) :
    Except String String × List Effect :=
  match self.agent with
  | none => (.error "Agent not available", [])
  | some agent =>
    callViaAgent ops agent self.counter_canister_id self.caller_canister_id "call_increment"

/-- `ICClient::caller_decrement` (src/ic_agent.rs lines 123-142). -/
def ICClient.caller_decrement (ops : ExternalOps) (self : ICClient) :
    Except String String × List Effect :=
  match self.agent with
  | none => (.error "Agent not available", [])
  | some agent =>
    callViaAgent ops agent self.counter_canister_id self.caller_canister_id "call_decrement"

/-- `ICClient::get_canister_ids`. -/
def ICClient.get_canister_ids (self : ICClient) : Principal × Principal :=
  (self.counter_canister_id, self.caller_canister_id)

/-- The with-agent tail of `ICClient::get_principal`. -/
def principalViaAgent (ops : ExternalOps) (agent : Agent) : Except String Principal :=
  match ops.agentGetPrincipal agent with
  | .error e => .error ("Failed to get principal: " ++ e)
  | .ok p => .ok p

/-- `ICClient::get_principal` (src/ic_agent.rs lines 154-162). -/
def ICClient.get_principal (ops : ExternalOps) (self : ICClient) : Except String Principal :=
  match self.agent with
  | none => .error "Agent not available"
  | some agent => principalViaAgent ops agent

/-- serde round trip of an `ICClient`: `#[serde(skip)]` on `agent` means
the serialized form carries only the two principals, and deserialization
fills the agent back in as `None`. -/
def serdeRoundTrip (c : ICClient) : ICClient :=
  { agent := none
    counter_canister_id := c.counter_canister_id
    caller_canister_id := c.caller_canister_id }

/-- `load_env_config` (src/ic_agent.rs lines 171-185); the process
environment is modelled as a lookup function.  Pure: performs no network
effect. -/
def load_env_config (getEnv : String → Option String) : Except String ICConfig :=
  let deployment_env := (getEnv "DEPLOYMENT_ENV").getD "local"
  match getEnv "COUNTER_CANISTER_ID" with
  | none => .error "COUNTER_CANISTER_ID environment variable not set"
  | some counter_canister_id =>
    match getEnv "CALLER_CANISTER_ID" with
    | none => .error "CALLER_CANISTER_ID environment variable not set"
    | some caller_canister_id =>
      .ok (ICConfig.new deployment_env counter_canister_id caller_canister_id)

/-- `create_local_client` (src/ic_agent.rs lines 249-259). -/
def create_local_client (ops : ExternalOps) (counter_canister_id caller_canister_id : String) :
    Except String ICClient × List Effect :=
  ICClient.new ops "http://127.0.0.1:4943" counter_canister_id caller_canister_id

/-- `create_mainnet_client` (src/ic_agent.rs lines 262-267). -/
def create_mainnet_client (ops : ExternalOps) (counter_canister_id caller_canister_id : String) :
    Except String ICClient × List Effect :=
  ICClient.new ops "https://ic0.app" counter_canister_id caller_canister_id

/-- `create_client_with_config` (src/ic_agent.rs lines 210-223): the Rust
`match` on a `&str` is equality dispatch, embedded as nested `if`. -/
def create_client_with_config (ops : ExternalOps)
    (deployment_env counter_canister_id caller_canister_id : String) :
    Except String ICClient × List Effect :=
  if deployment_env = "local" then
    create_local_client ops counter_canister_id caller_canister_id
  else if deployment_env = "prod" then
    create_mainnet_client ops counter_canister_id caller_canister_id
  else
    (.error ("Invalid DEPLOYMENT_ENV: " ++ deployment_env ++
      ". Must be \x27local\x27 or \x27prod\x27"), [])

/-- `create_client` (src/ic_agent.rs lines 193-201, ssr path): resolve
the configuration, then construct.  A configuration error aborts with an
empty effect trace. -/
def create_client (ops : ExternalOps) (getEnv : String → Option String) :
    Except String ICClient × List Effect :=
  match load_env_config getEnv with
  | .error e => (.error e, [])
  | .ok config =>
    create_client_with_config ops config.deployment_env
      config.counter_canister_id config.caller_canister_id

/-- `get_ic_config` (src/ic_agent.rs lines 205-207). -/
def get_ic_config (getEnv : String → Option String) : Except String ICConfig :=
  load_env_config getEnv

/-- `create_client_from_config` (src/ic_agent.rs lines 239-246). -/
def create_client_from_config (ops : ExternalOps) (config : ICConfig) :
    Except String ICClient × List Effect :=
  create_client_with_config ops config.deployment_env
    config.counter_canister_id config.caller_canister_id

/-- Number of root-key fetches (trust-bootstrap round trips) in a trace. -/
def countRootKeyFetches (tr : List Effect) : Nat :=
  tr.countP (fun e => match e with | .fetchRootKey _ => true | _ => false)

/-- Number of update (operation) calls in a trace. -/
def countUpdateCalls (tr : List Effect) : Nat :=
  tr.countP (fun e => match e with | .updateCall _ _ _ => true | _ => false)

/-- `CallerAction` from src/server_functions.rs. -/
inductive CallerAction where
  | Get
  | Increment
  | Decrement
deriving DecidableEq

/-- `CallerResult` from src/server_functions.rs: the Outcome record
handed to the presentation boundary. -/
structure CallerResult where
  value : String
  success : Bool
  error : Option String
  action : CallerAction
deriving DecidableEq

/-- The single `ServerFnError` variant the source constructs. -/
inductive ServerFnError where
  | ServerError (msg : String)
deriving DecidableEq

/-- `execute_counter_action` (src/server_functions.rs lines 25-68, ssr
path): dispatch the action to the corresponding client method; an `Err`
from the method is propagated as `ServerFnError::ServerError` via `?`,
and an `Ok` value is wrapped in a `CallerResult` with `success: true`
and `error: None`. -/
def execute_counter_action (ops : ExternalOps) (client : ICClient)
    (action : CallerAction) : Except ServerFnError CallerResult × List Effect :=
  match action with
  | .Get =>
    match client.caller_get ops with
    | (.error e, tr) => (.error (.ServerError e), tr)
    | (.ok value, tr) =>
      (.ok { value := value, success := true, error := none, action := .Get }, tr)
  | .Increment =>
    match client.caller_increment ops with
    | (.error e, tr) => (.error (.ServerError e), tr)
    | (.ok value, tr) =>
      (.ok { value := value, success := true, error := none, action := .Increment }, tr)
  | .Decrement =>
    match client.caller_decrement ops with
    | (.error e, tr) => (.error (.ServerError e), tr)
    | (.ok value, tr) =>
      (.ok { value := value, success := true, error := none, action := .Decrement }, tr)

/-- Remote method symbol dispatched for each action. -/
def methodOf : CallerAction → String
  | .Get => "call_get"
  | .Increment => "call_increment"
  | .Decrement => "call_decrement"

/-- The client handle value after one operation call.  The source
methods take `&self` (a shared borrow, no interior mutability in any
field) and never reassign a field, so the post-call handle is the same
value whatever the call's result was. -/
def postCallClient (self : ICClient) (_r : Except ServerFnError CallerResult) : ICClient :=
  self

/-- Run a sequence of dispatched actions, threading the client handle
through `postCallClient` after every call. -/
def execSeq (ops : ExternalOps) :
    ICClient → List CallerAction → ICClient × List (Except ServerFnError CallerResult)
  | client, [] => (client, [])
  | client, a :: rest =>
    let r := (execute_counter_action ops client a).1
    let next := execSeq ops (postCallClient client r) rest
    (next.1, r :: next.2)

/-- Fixture oracle set for concrete evaluations: every external call
succeeds, and every decode yields the value five. -/
def opsW : ExternalOps :=
  { buildAgent := fun url => .ok { url := url }
    fetchRootKey := fun _ => .ok ()
    principalFromText := fun s => .ok { name := s }
    encodeArgs := fun _ => .ok [0]
    update := fun _ _ _ _ => .ok [1]
    decodeNatResult := fun _ => .ok (.ok 5)
    agentGetPrincipal := fun a => .ok { name := a.url } }

/-- Fixture oracle set in which the remote runtime reports the failure
message "boom" (the decoded response is the `Err` arm). -/
def opsRemoteErr : ExternalOps :=
  { opsW with decodeNatResult := fun _ => .ok (.error "boom") }

/-- Fixture oracle set in which the identity text "bad" fails to parse. -/
def opsBadPrincipal : ExternalOps :=
  { opsW with
    principalFromText := fun s =>
      if s = "bad" then .error "not a principal" else .ok { name := s } }

/-- Fixture oracle set in which decoding yields the value `2 ^ 130 + 7`,
a value far beyond any fixed machine-word width. -/
def opsBigValue : ExternalOps :=
  { opsW with decodeNatResult := fun _ => .ok (.ok (2 ^ 130 + 7)) }

/-- Fixture client handle with a live agent. -/
def clientW : ICClient :=
  { agent := some { url := "http://127.0.0.1:4943" }
    counter_canister_id := { name := "counter" }
    caller_canister_id := { name := "caller" } }

/-- Fixture client handle as reconstructed from its stripped serialized
form: the agent field is unset. -/
def clientStripped : ICClient := serdeRoundTrip clientW

/-! Helper lemmas about decimal stringification. -/

theorem charVal_ofNat_digit (d : Nat) (h : d < 10) : charVal (Char.ofNat (48 + d)) = d := by
  interval_cases d <;> rfl

theorem parseDecimalList_append_digit (l : List Char) (c : Char) :
    parseDecimalList (l ++ [c]) = 10 * parseDecimalList l + charVal c := by
  simp [parseDecimalList, List.foldl_append]

theorem parseDecimalList_natToDigitsAux (fuel : Nat) :
    ∀ n, n < 10 ^ fuel → parseDecimalList (natToDigitsAux fuel n) = n := by
  induction fuel with
  | zero =>
    intro n hn
    interval_cases n
    rfl
  | succ fuel ih =>
    intro n hn
    by_cases h : n < 10
    · simp [natToDigitsAux, h, parseDecimalList, charVal_ofNat_digit n h]
    · have hdiv : n / 10 < 10 ^ fuel := by
        rw [Nat.div_lt_iff_lt_mul (by norm_num : (0 : Nat) < 10)]
        calc n < 10 ^ (fuel + 1) := hn
          _ = 10 ^ fuel * 10 := by rw [pow_succ]
      have hmod : n % 10 < 10 := Nat.mod_lt _ (by norm_num)
      rw [natToDigitsAux, if_neg h, parseDecimalList_append_digit,
        ih (n / 10) hdiv, charVal_ofNat_digit (n % 10) hmod]
      omega

theorem parseDecimal_natToString (n : Nat) : parseDecimal (natToString n) = n := by
  have hb : n < 10 ^ (n + 1) :=
    lt_of_lt_of_le (Nat.lt_pow_self (by norm_num) n)
      (Nat.pow_le_pow_right (by norm_num) (Nat.le_succ n))
  simpa [parseDecimal, natToString] using parseDecimalList_natToDigitsAux (n + 1) n hb

theorem natToString_injective : Function.Injective natToString := by
  intro a b h
  have ha := parseDecimal_natToString a
  rw [h, parseDecimal_natToString b] at ha
  exact ha.symm

/-- C1: for every environment tag outside {"local","prod"},
construction-by-config (`create_client_with_config`) fails with the
invalid-environment error and performs no effect, so no client is
produced, and the error message contains the offending tag verbatim;
for "local" and "prod" it selects exactly the fixed local endpoint
http://127.0.0.1:4943 and production endpoint https://ic0.app. -/
theorem C1_environment_dispatch (ops : ExternalOps) (env c r : String)
    (h1 : env ≠ "local") (h2 : env ≠ "prod") :
    create_client_with_config ops env c r =
      (.error ("Invalid DEPLOYMENT_ENV: " ++ env ++ ". Must be \x27local\x27 or \x27prod\x27"), [])
    ∧ rustContains
        ("Invalid DEPLOYMENT_ENV: " ++ env ++ ". Must be \x27local\x27 or \x27prod\x27") env = true
    ∧ create_client_with_config ops "local" c r = ICClient.new ops "http://127.0.0.1:4943" c r
    ∧ create_client_with_config ops "prod" c r = ICClient.new ops "https://ic0.app" c r := by
  refine ⟨?_, ?_, ?_, ?_⟩
  · simp [create_client_with_config, h1, h2]
  · unfold rustContains
    apply decide_eq_true
    exact ⟨"Invalid DEPLOYMENT_ENV: ".data, ". Must be \x27local\x27 or \x27prod\x27".data, rfl⟩
  · simp [create_client_with_config, create_local_client]
  · simp [create_client_with_config, create_mainnet_client]

/-- Witness for C1 at the concrete tag "staging". -/
theorem C1_environment_dispatch_witness :
    create_client_with_config opsW "staging" "c" "r" =
      (.error ("Invalid DEPLOYMENT_ENV: " ++ "staging" ++
        ". Must be \x27local\x27 or \x27prod\x27"), [])
    ∧ rustContains
        ("Invalid DEPLOYMENT_ENV: " ++ "staging" ++
          ". Must be \x27local\x27 or \x27prod\x27") "staging" = true
    ∧ create_client_with_config opsW "local" "c" "r" = ICClient.new opsW "http://127.0.0.1:4943" "c" "r"
    ∧ create_client_with_config opsW "prod" "c" "r" = ICClient.new opsW "https://ic0.app" "c" "r" :=
  C1_environment_dispatch opsW "staging" "c" "r" (by decide) (by decide)

/-- C4: in the default configuration path, absence of either
target-identifier key makes `create_client` fail with the corresponding
missing-target configuration error and an empty effect trace, so no
connection is opened and no network I/O is attempted. -/
theorem C4_missing_target_no_io (ops : ExternalOps) (getEnv : String → Option String)
    (h : getEnv "COUNTER_CANISTER_ID" = none ∨ getEnv "CALLER_CANISTER_ID" = none) :
    ∃ msg, create_client ops getEnv = (.error msg, [])
      ∧ (msg = "COUNTER_CANISTER_ID environment variable not set"
        ∨ msg = "CALLER_CANISTER_ID environment variable not set") := by
  cases hc : getEnv "COUNTER_CANISTER_ID" with
  | none =>
    exact ⟨_, by simp [create_client, load_env_config, hc], Or.inl rfl⟩
  | some v =>
    rcases h with h | h
    · rw [hc] at h
      exact Option.noConfusion h
    · exact ⟨_, by simp [create_client, load_env_config, hc, h], Or.inr rfl⟩

/-- Witness for C4 with an entirely empty environment. -/
theorem C4_missing_target_no_io_witness :
    ∃ msg, create_client opsW (fun _ => none) = (.error msg, [])
      ∧ (msg = "COUNTER_CANISTER_ID environment variable not set"
        ∨ msg = "CALLER_CANISTER_ID environment variable not set") :=
  C4_missing_target_no_io opsW (fun _ => none) (Or.inl rfl)

/-- C8: on a successful decode of the Ok arm each of the three
operations returns the decoded unbounded natural stringified losslessly:
the returned string is its exact decimal representation (`natToString`),
and the reference decimal parser recovers the value, for every
non-negative integer including values exceeding any machine-word
width. -/
theorem C8_lossless_stringification (ops : ExternalOps) (client : ICClient) (a : Agent)
    (arg resp : List Nat) (v : Nat)
    (ha : client.agent = some a)
    (he : ops.encodeArgs client.counter_canister_id = .ok arg)
    (hd : ops.decodeNatResult resp = .ok (.ok v)) :
    (ops.update a client.caller_canister_id "call_get" arg = .ok resp →
      (client.caller_get ops).1 = .ok (natToString v))
    ∧ (ops.update a client.caller_canister_id "call_increment" arg = .ok resp →
      (client.caller_increment ops).1 = .ok (natToString v))
    ∧ (ops.update a client.caller_canister_id "call_decrement" arg = .ok resp →
      (client.caller_decrement ops).1 = .ok (natToString v))
    ∧ parseDecimal (natToString v) = v := by
  refine ⟨fun hu => ?_, fun hu => ?_, fun hu => ?_, parseDecimal_natToString v⟩
  · simp [ICClient.caller_get, callViaAgent, ha, he, hu, hd]
  · simp [ICClient.caller_increment, callViaAgent, ha, he, hu, hd]
  · simp [ICClient.caller_decrement, callViaAgent, ha, he, hu, hd]

/-- Witness for C8 at the value 2 ^ 130 + 7, which exceeds any fixed
machine-word width. -/
theorem C8_lossless_stringification_witness :
    (clientW.caller_get opsBigValue).1 = .ok (natToString (2 ^ 130 + 7))
    ∧ parseDecimal (natToString (2 ^ 130 + 7)) = 2 ^ 130 + 7 := by
  have h := C8_lossless_stringification opsBigValue clientW ⟨"http://127.0.0.1:4943"⟩
    [0] [1] (2 ^ 130 + 7) rfl rfl rfl
  exact ⟨h.1 rfl, h.2.2.2⟩

/-! Helper lemmas characterizing the branches of `ICClient.new` and the
shared operation body. -/

theorem ICClient.new_agent_error (ops : ExternalOps) (url c r e : String)
    (hb : ops.buildAgent url = .error e) :
    ICClient.new ops url c r =
      (.error ("Failed to create agent: " ++ e), [Effect.buildAgent url]) := by
  simp [ICClient.new, hb]

theorem ICClient.new_nonlocal (ops : ExternalOps) (url c r : String) (a : Agent)
    (hb : ops.buildAgent url = .ok a)
    (hc : (rustContains url "127.0.0.1" || rustContains url "localhost") = false) :
    ICClient.new ops url c r =
      (ICClient.parseAndBuild ops a c r, [Effect.buildAgent url]) := by
  simp [ICClient.new, hb, hc]

theorem ICClient.new_local_fetch_error (ops : ExternalOps) (url c r : String) (a : Agent)
    (e : String) (hb : ops.buildAgent url = .ok a)
    (hc : (rustContains url "127.0.0.1" || rustContains url "localhost") = true)
    (hf : ops.fetchRootKey a = .error e) :
    ICClient.new ops url c r =
      (.error ("Failed to fetch root key: " ++ e),
        [Effect.buildAgent url, Effect.fetchRootKey a]) := by
  simp [ICClient.new, hb, hc, hf]

theorem ICClient.new_local_fetch_ok (ops : ExternalOps) (url c r : String) (a : Agent)
    (hb : ops.buildAgent url = .ok a)
    (hc : (rustContains url "127.0.0.1" || rustContains url "localhost") = true)
    (hf : ops.fetchRootKey a = .ok ()) :
    ICClient.new ops url c r =
      (ICClient.parseAndBuild ops a c r,
        [Effect.buildAgent url, Effect.fetchRootKey a]) := by
  simp [ICClient.new, hb, hc, hf]

theorem parseAndBuild_ok (ops : ExternalOps) (a : Agent) (c r : String) (client : ICClient)
    (h : ICClient.parseAndBuild ops a c r = .ok client) :
    ∃ cp rp, ops.principalFromText c = .ok cp ∧ ops.principalFromText r = .ok rp
      ∧ client = { agent := some a, counter_canister_id := cp, caller_canister_id := rp } := by
  cases hc : ops.principalFromText c with
  | error e =>
    simp only [ICClient.parseAndBuild, hc] at h
    exact Except.noConfusion h
  | ok cp =>
    cases hr : ops.principalFromText r with
    | error e =>
      simp only [ICClient.parseAndBuild, hc, hr] at h
      exact Except.noConfusion h
    | ok rp =>
      simp only [ICClient.parseAndBuild, hc, hr, Except.ok.injEq] at h
      exact ⟨cp, rp, rfl, rfl, h.symm⟩

theorem parseAndBuild_counter_error (ops : ExternalOps) (a : Agent) (c r e : String)
    (h : ops.principalFromText c = .error e) :
    ICClient.parseAndBuild ops a c r = .error ("Invalid counter canister ID: " ++ e) := by
  simp [ICClient.parseAndBuild, h]

theorem parseAndBuild_caller_error (ops : ExternalOps) (a : Agent) (c r e : String)
    (cp : Principal) (hc : ops.principalFromText c = .ok cp)
    (hr : ops.principalFromText r = .error e) :
    ICClient.parseAndBuild ops a c r = .error ("Invalid caller canister ID: " ++ e) := by
  simp [ICClient.parseAndBuild, hc, hr]

theorem callViaAgent_trace (ops : ExternalOps) (a : Agent) (counter relay : Principal)
    (m : String) (arg : List Nat) (he : ops.encodeArgs counter = .ok arg) :
    (callViaAgent ops a counter relay m).2 = [Effect.updateCall relay m arg] := by
  cases hu : ops.update a relay m arg with
  | error e => simp [callViaAgent, he, hu]
  | ok resp =>
    cases hd : ops.decodeNatResult resp with
    | error e => simp [callViaAgent, he, hu, hd]
    | ok res => cases res <;> simp [callViaAgent, he, hu, hd]

/-- C3: construction against the production endpoint performs zero
trust-bootstrap (root-key fetch) round trips; construction against the
local endpoint performs exactly one as soon as the agent is built (its
URL contains the loopback marker); when the bootstrap is required, a
client handle is returned only if it completed successfully; and no
construction trace ever contains an operation (update) call, so the
bootstrap precedes every operation. -/
theorem C3_bootstrap_policy (ops : ExternalOps) (c r : String) :
    countRootKeyFetches (ICClient.new ops "https://ic0.app" c r).2 = 0
    ∧ (∀ a, ops.buildAgent "http://127.0.0.1:4943" = .ok a →
        countRootKeyFetches (ICClient.new ops "http://127.0.0.1:4943" c r).2 = 1)
    ∧ (∀ a client, ops.buildAgent "http://127.0.0.1:4943" = .ok a →
        (ICClient.new ops "http://127.0.0.1:4943" c r).1 = .ok client →
        ops.fetchRootKey a = .ok ())
    ∧ (∀ url, countUpdateCalls (ICClient.new ops url c r).2 = 0) := by
  have hlocal : (rustContains "http://127.0.0.1:4943" "127.0.0.1"
      || rustContains "http://127.0.0.1:4943" "localhost") = true := by decide
  have hprod : (rustContains "https://ic0.app" "127.0.0.1"
      || rustContains "https://ic0.app" "localhost") = false := by decide
  refine ⟨?_, ?_, ?_, ?_⟩
  · cases hb : ops.buildAgent "https://ic0.app" with
    | error e => rw [ICClient.new_agent_error ops _ c r e hb]; rfl
    | ok a => rw [ICClient.new_nonlocal ops _ c r a hb hprod]; rfl
  · intro a hb
    cases hf : ops.fetchRootKey a with
    | error e => rw [ICClient.new_local_fetch_error ops _ c r a e hb hlocal hf]; rfl
    | ok u => cases u; rw [ICClient.new_local_fetch_ok ops _ c r a hb hlocal hf]; rfl
  · intro a client hb hok
    cases hf : ops.fetchRootKey a with
    | error e =>
      rw [ICClient.new_local_fetch_error ops _ c r a e hb hlocal hf] at hok
      exact Except.noConfusion hok
    | ok u => cases u; rfl
  · intro url
    cases hb : ops.buildAgent url with
    | error e => rw [ICClient.new_agent_error ops url c r e hb]; rfl
    | ok a =>
      cases hc : (rustContains url "127.0.0.1" || rustContains url "localhost") with
      | false => rw [ICClient.new_nonlocal ops url c r a hb hc]; rfl
      | true =>
        cases hf : ops.fetchRootKey a with
        | error e => rw [ICClient.new_local_fetch_error ops url c r a e hb hc hf]; rfl
        | ok u => cases u; rw [ICClient.new_local_fetch_ok ops url c r a hb hc hf]; rfl

/-- Witness for C3 with the all-succeeding oracle set. -/
theorem C3_bootstrap_policy_witness :
    countRootKeyFetches (ICClient.new opsW "https://ic0.app" "c" "r").2 = 0
    ∧ countRootKeyFetches (ICClient.new opsW "http://127.0.0.1:4943" "c" "r").2 = 1
    ∧ opsW.fetchRootKey ⟨"http://127.0.0.1:4943"⟩ = .ok () := by
  have h := C3_bootstrap_policy opsW "c" "r"
  exact ⟨h.1, h.2.1 ⟨"http://127.0.0.1:4943"⟩ rfl,
    h.2.2.1 ⟨"http://127.0.0.1:4943"⟩
      ⟨some ⟨"http://127.0.0.1:4943"⟩, ⟨"c"⟩, ⟨"r"⟩⟩ rfl rfl⟩

/-- C5: with a live agent and a successful argument encoding, each of
the three operations issues exactly one update (state-changing) remote
call — get included — addressed to the relay (caller) target, whose sole
argument is the encoding of the counter-target identity, naming the
remote methods call_get, call_increment, call_decrement respectively. -/
theorem C5_single_update_call (ops : ExternalOps) (client : ICClient) (a : Agent)
    (arg : List Nat) (ha : client.agent = some a)
    (he : ops.encodeArgs client.counter_canister_id = .ok arg) :
    (client.caller_get ops).2 = [Effect.updateCall client.caller_canister_id "call_get" arg]
    ∧ (client.caller_increment ops).2 =
      [Effect.updateCall client.caller_canister_id "call_increment" arg]
    ∧ (client.caller_decrement ops).2 =
      [Effect.updateCall client.caller_canister_id "call_decrement" arg] := by
  refine ⟨?_, ?_, ?_⟩
  · simp only [ICClient.caller_get, ha]
    exact callViaAgent_trace ops a _ _ "call_get" arg he
  · simp only [ICClient.caller_increment, ha]
    exact callViaAgent_trace ops a _ _ "call_increment" arg he
  · simp only [ICClient.caller_decrement, ha]
    exact callViaAgent_trace ops a _ _ "call_decrement" arg he

/-- Witness for C5 on the concrete fixture client. -/
theorem C5_single_update_call_witness :
    (clientW.caller_get opsW).2 = [Effect.updateCall clientW.caller_canister_id "call_get" [0]]
    ∧ (clientW.caller_increment opsW).2 =
      [Effect.updateCall clientW.caller_canister_id "call_increment" [0]]
    ∧ (clientW.caller_decrement opsW).2 =
      [Effect.updateCall clientW.caller_canister_id "call_decrement" [0]] :=
  C5_single_update_call opsW clientW ⟨"http://127.0.0.1:4943"⟩ [0] rfl rfl

/-- C6: a client handle comes into existence only if both identity
strings parsed — construction success pins the handle's principals to
the parsed values and a live agent, so an unparseable identity can never
surface on a constructed client — and when the parsing step is reached
an unparseable counter (resp. caller) identity yields the construction
error naming that identity. -/
theorem C6_identity_parse_guard (ops : ExternalOps) (url c r : String) :
    (∀ client, (ICClient.new ops url c r).1 = .ok client →
      ∃ cp rp, ops.principalFromText c = .ok cp ∧ ops.principalFromText r = .ok rp
        ∧ client.counter_canister_id = cp ∧ client.caller_canister_id = rp
        ∧ client.agent.isSome = true)
    ∧ (∀ a, ops.buildAgent url = .ok a → ops.fetchRootKey a = .ok () →
      (∀ e, ops.principalFromText c = .error e →
        (ICClient.new ops url c r).1 = .error ("Invalid counter canister ID: " ++ e))
      ∧ (∀ cp e, ops.principalFromText c = .ok cp → ops.principalFromText r = .error e →
        (ICClient.new ops url c r).1 = .error ("Invalid caller canister ID: " ++ e))) := by
  constructor
  · intro client hok
    cases hb : ops.buildAgent url with
    | error e =>
      rw [ICClient.new_agent_error ops url c r e hb] at hok
      exact Except.noConfusion hok
    | ok a =>
      cases hc : (rustContains url "127.0.0.1" || rustContains url "localhost") with
      | false =>
        rw [ICClient.new_nonlocal ops url c r a hb hc] at hok
        obtain ⟨cp, rp, h1, h2, h3⟩ := parseAndBuild_ok ops a c r client hok
        exact ⟨cp, rp, h1, h2, by rw [h3], by rw [h3], by rw [h3]; rfl⟩
      | true =>
        cases hf : ops.fetchRootKey a with
        | error e =>
          rw [ICClient.new_local_fetch_error ops url c r a e hb hc hf] at hok
          exact Except.noConfusion hok
        | ok u =>
          cases u
          rw [ICClient.new_local_fetch_ok ops url c r a hb hc hf] at hok
          obtain ⟨cp, rp, h1, h2, h3⟩ := parseAndBuild_ok ops a c r client hok
          exact ⟨cp, rp, h1, h2, by rw [h3], by rw [h3], by rw [h3]; rfl⟩
  · intro a hb hf
    constructor
    · intro e hc
      cases hloc : (rustContains url "127.0.0.1" || rustContains url "localhost") with
      | false =>
        rw [ICClient.new_nonlocal ops url c r a hb hloc]
        exact parseAndBuild_counter_error ops a c r e hc
      | true =>
        rw [ICClient.new_local_fetch_ok ops url c r a hb hloc hf]
        exact parseAndBuild_counter_error ops a c r e hc
    · intro cp e hcp hr
      cases hloc : (rustContains url "127.0.0.1" || rustContains url "localhost") with
      | false =>
        rw [ICClient.new_nonlocal ops url c r a hb hloc]
        exact parseAndBuild_caller_error ops a c r e cp hcp hr
      | true =>
        rw [ICClient.new_local_fetch_ok ops url c r a hb hloc hf]
        exact parseAndBuild_caller_error ops a c r e cp hcp hr

/-- Witness for C6: with the fixture oracle under which the text "bad"
does not parse, construction with a bad counter identity reports it. -/
theorem C6_identity_parse_guard_witness :
    (ICClient.new opsBadPrincipal "https://ic0.app" "bad" "r").1 =
      .error ("Invalid counter canister ID: " ++ "not a principal") :=
  ((C6_identity_parse_guard opsBadPrincipal "https://ic0.app" "bad" "r").2
    ⟨"https://ic0.app"⟩ rfl rfl).1 "not a principal" (by decide)

/-- C9: when the connection handle is unset — exactly the state a value
reconstructed from its stripped serialized form is in — get_principal
and each of the three operations fail with the "Agent not available"
lookup error and an empty effect trace, before issuing any remote call;
when the agent is set, the guard branch is not taken: each function
equals its with-agent tail, which contains no such branch. -/
theorem C9_agent_guard (ops : ExternalOps) (client : ICClient) :
    (serdeRoundTrip client).agent = none
    ∧ (client.agent = none →
      client.caller_get ops = (.error "Agent not available", [])
      ∧ client.caller_increment ops = (.error "Agent not available", [])
      ∧ client.caller_decrement ops = (.error "Agent not available", [])
      ∧ client.get_principal ops = .error "Agent not available")
    ∧ (∀ a, client.agent = some a →
      client.caller_get ops =
        callViaAgent ops a client.counter_canister_id client.caller_canister_id "call_get"
      ∧ client.caller_increment ops =
        callViaAgent ops a client.counter_canister_id client.caller_canister_id "call_increment"
      ∧ client.caller_decrement ops =
        callViaAgent ops a client.counter_canister_id client.caller_canister_id "call_decrement"
      ∧ client.get_principal ops = principalViaAgent ops a) := by
  refine ⟨rfl, fun h => ⟨?_, ?_, ?_, ?_⟩, fun a h => ⟨?_, ?_, ?_, ?_⟩⟩
  · simp [ICClient.caller_get, h]
  · simp [ICClient.caller_increment, h]
  · simp [ICClient.caller_decrement, h]
  · simp [ICClient.get_principal, h]
  · simp [ICClient.caller_get, h]
  · simp [ICClient.caller_increment, h]
  · simp [ICClient.caller_decrement, h]
  · simp [ICClient.get_principal, h]

/-- Witness for C9 on the stripped and the live fixture clients. -/
theorem C9_agent_guard_witness :
    clientStripped.caller_get opsW = (.error "Agent not available", [])
    ∧ clientW.caller_get opsW =
      callViaAgent opsW ⟨"http://127.0.0.1:4943"⟩ clientW.counter_canister_id
        clientW.caller_canister_id "call_get" :=
  ⟨((C9_agent_guard opsW clientStripped).2.1 rfl).1,
    ((C9_agent_guard opsW clientW).2.2 ⟨"http://127.0.0.1:4943"⟩ rfl).1⟩

/-- C10: the client handle is immutable across every sequence of
dispatched operations: threading the handle through the post-call state
of every call leaves the final handle equal to the initial one —
connection handle, counter-target and relay-target identities included —
and each call's result is computed from that same unchanged handle, so
per-call failures never invalidate the handle and every operation
remains retriable on it. -/
theorem C10_handle_immutable (ops : ExternalOps) (client : ICClient)
    (acts : List CallerAction) :
    (execSeq ops client acts).1 = client
    ∧ (execSeq ops client acts).2 =
      acts.map (fun a => (execute_counter_action ops client a).1)
    ∧ (execSeq ops client acts).1.agent = client.agent
    ∧ (execSeq ops client acts).1.counter_canister_id = client.counter_canister_id
    ∧ (execSeq ops client acts).1.caller_canister_id = client.caller_canister_id := by
  have main : ∀ cs : List CallerAction,
      (execSeq ops client cs).1 = client
      ∧ (execSeq ops client cs).2 =
        cs.map (fun a => (execute_counter_action ops client a).1) := by
    intro cs
    induction cs with
    | nil => exact ⟨rfl, rfl⟩
    | cons a rest ih =>
      refine ⟨?_, ?_⟩
      · simpa [execSeq, postCallClient] using ih.1
      · simpa [execSeq, postCallClient] using ih.2
  exact ⟨(main acts).1, (main acts).2, by rw [(main acts).1], by rw [(main acts).1],
    by rw [(main acts).1]⟩

/-- C7: both canned configuration defaults exist: the local default is
exactly the {"local", "u6s2n-gx777-77774-qaaba-cai",
"uxrrr-q7777-77774-qaaaq-cai"} triple, the production default (modelled
from the spec, its definition being outside the provided sources)
carries the "prod" environment; each feeds an explicit bootstrap call
site through `create_client_from_config`; and neither is silently
substituted when the default-path lookup fails: a lookup missing a
target key never yields any configuration. -/
theorem C7_canned_defaults (ops : ExternalOps) :
    ICConfig.default_local =
      { deployment_env := "local"
        counter_canister_id := "u6s2n-gx777-77774-qaaba-cai"
        caller_canister_id := "uxrrr-q7777-77774-qaaaq-cai" }
    ∧ ICConfig.default_mainnet.deployment_env = "prod"
    ∧ create_client_from_config ops ICConfig.default_local =
      create_local_client ops "u6s2n-gx777-77774-qaaba-cai" "uxrrr-q7777-77774-qaaaq-cai"
    ∧ create_client_from_config ops ICConfig.default_mainnet =
      create_mainnet_client ops ICConfig.default_mainnet.counter_canister_id
        ICConfig.default_mainnet.caller_canister_id
    ∧ (∀ getEnv : String → Option String,
        getEnv "COUNTER_CANISTER_ID" = none ∨ getEnv "CALLER_CANISTER_ID" = none →
        ∀ cfg, load_env_config getEnv ≠ .ok cfg) := by
  refine ⟨rfl, rfl, ?_, ?_, ?_⟩
  · simp [create_client_from_config, create_client_with_config, ICConfig.default_local]
  · simp [create_client_from_config, create_client_with_config, ICConfig.default_mainnet]
  · intro getEnv h cfg hok
    cases hc : getEnv "COUNTER_CANISTER_ID" with
    | none => simp [load_env_config, hc] at hok
    | some v =>
      rcases h with h | h
      · rw [hc] at h
        exact Option.noConfusion h
      · simp [load_env_config, hc, h] at hok

/-- Witness for C7: with an empty lookup, the local default is not
substituted. -/
theorem C7_canned_defaults_witness :
    load_env_config (fun _ => none) ≠ .ok ICConfig.default_local :=
  (C7_canned_defaults opsW).2.2.2.2 (fun _ => none) (Or.inl rfl) ICConfig.default_local

/-- C2 counterexample: with oracles under which the dispatched call
completes and the decoded response is the remote-failure arm
`Err "boom"`, the entry point surfaces an Err(ServerError) value — it
returns no Outcome at all, in particular not one with success = false
and error = some "boom" as the claim states. -/
theorem C2_remote_error_counterexample :
    opsRemoteErr.decodeNatResult [1] = .ok (.error "boom")
    ∧ (execute_counter_action opsRemoteErr clientW .Get).1 =
      .error (.ServerError ("Error: " ++ "boom"))
    ∧ ((execute_counter_action opsRemoteErr clientW .Get).1 matches .ok _) = False := by
  refine ⟨rfl, rfl, ?_⟩
  decide

/-- C2 as amended: a remote-reported failure (the Err(message) arm of
the decoded two-armed result) is surfaced by the entry point as an
Err(ServerFnError::ServerError) whose message is "Error: " ++ message —
preserving the remote message and never taking the DecodeFailed shape —
for every action dispatched through the entry point; it is never
delivered as an Outcome: every Outcome the entry point returns has
success = true and error = none. -/
theorem C2_remote_error_surfacing (ops : ExternalOps) (client : ICClient) (a : Agent)
    (action : CallerAction) (arg resp : List Nat) (msg : String)
    (ha : client.agent = some a)
    (he : ops.encodeArgs client.counter_canister_id = .ok arg)
    (hu : ops.update a client.caller_canister_id (methodOf action) arg = .ok resp)
    (hd : ops.decodeNatResult resp = .ok (.error msg)) :
    (execute_counter_action ops client action).1 =
      .error (.ServerError ("Error: " ++ msg))
    ∧ (∀ (ops2 : ExternalOps) (client2 : ICClient) (action2 : CallerAction) (r : CallerResult),
        (execute_counter_action ops2 client2 action2).1 = .ok r →
        r.success = true ∧ r.error = none) := by
  constructor
  · cases action with
    | Get =>
      simp only [methodOf] at hu
      simp [execute_counter_action, ICClient.caller_get, callViaAgent, ha, he, hu, hd]
    | Increment =>
      simp only [methodOf] at hu
      simp [execute_counter_action, ICClient.caller_increment, callViaAgent, ha, he, hu, hd]
    | Decrement =>
      simp only [methodOf] at hu
      simp [execute_counter_action, ICClient.caller_decrement, callViaAgent, ha, he, hu, hd]
  · intro ops2 client2 action2 r h
    cases action2 with
    | Get =>
      rcases hg : client2.caller_get ops2 with ⟨res, tr⟩
      rw [execute_counter_action, hg] at h
      cases res with
      | error e => exact Except.noConfusion h
      | ok v =>
        simp only [Except.ok.injEq] at h
        rw [← h]
        exact ⟨rfl, rfl⟩
    | Increment =>
      rcases hg : client2.caller_increment ops2 with ⟨res, tr⟩
      rw [execute_counter_action, hg] at h
      cases res with
      | error e => exact Except.noConfusion h
      | ok v =>
        simp only [Except.ok.injEq] at h
        rw [← h]
        exact ⟨rfl, rfl⟩
    | Decrement =>
      rcases hg : client2.caller_decrement ops2 with ⟨res, tr⟩
      rw [execute_counter_action, hg] at h
      cases res with
      | error e => exact Except.noConfusion h
      | ok v =>
        simp only [Except.ok.injEq] at h
        rw [← h]
        exact ⟨rfl, rfl⟩

/-- Witness for the amended C2 on the concrete remote-failure fixture. -/
theorem C2_remote_error_surfacing_witness :
    (execute_counter_action opsRemoteErr clientW .Increment).1 =
      .error (.ServerError ("Error: " ++ "boom")) :=
  (C2_remote_error_surfacing opsRemoteErr clientW ⟨"http://127.0.0.1:4943"⟩
    .Increment [0] [1] "boom" rfl rfl rfl rfl).1

end Onboarding
